import Mathlib

/-!
Shallow embedding of the authentication core of the leagueLogik backend
(src/backend/app): the user model with lockout bookkeeping
(app/models/user.py), credential authentication and JWT token
issuance/verification (app/utils/auth.py), role expansion and role-based
access checks (app/api/dependencies.py), the refresh endpoint
(app/api/v1/auth.py) and the password-change validation schema
(app/schemas/auth.py).

Modelling conventions: timestamps are `Nat` seconds; the SQLAlchemy
session is a `List User` with persist-by-primary-key; the bcrypt password
hasher is an external collaborator and is passed in as an abstract
`String → String → Bool` verification function; a JWT is either a signed
structure (payload, signing key, algorithm) or a malformed string, and
`jwt.decode` succeeds exactly when the key and algorithm match and the
embedded `exp` claim has not passed (python-jose treats a token as expired
iff `exp < now`).  Python's uniform `None` failure results are refined into
the internal failure taxonomy that the code's branches realise, so that
each `return None` site keeps its identity.
-/

set_option autoImplicit false

namespace LeagueLogik

/-- Member status enum from app/models/user.py (`MemberStatus`). -/
inductive MemberStatus
  | active
  | inactive
deriving DecidableEq

/-- Administrative role enum from app/models/user.py (`AdminRole`). -/
inductive AdminRole
  | admin
  | treasurer
  | course_coordinator
  | tournament_coordinator
deriving DecidableEq, Fintype

/-- The string value of each `AdminRole` member, as declared in the enum. -/
def AdminRole.value : AdminRole → String
  | .admin => "admin"
  | .treasurer => "treasurer"
  | .course_coordinator => "course_coordinator"
  | .tournament_coordinator => "tournament_coordinator"

/-- The fields of the `User` model (app/models/user.py) that the
authentication core reads or writes.  Profile, membership-type, financial
and audit columns are bundled as `other_fields` so that frame conditions
("every other stored field unchanged") remain expressible without
enumerating columns the core never touches. -/
structure User where
  member_id : Nat
  email : String
  password_hash : String
  member_status : MemberStatus
  admin_roles : Option AdminRole
  failed_login_attempts : Nat
  locked_until : Option Nat
  other_fields : List String
deriving DecidableEq

/-- `User.is_active` property: `member_status == MemberStatus.ACTIVE`. -/
def User.is_active (u : User) : Bool :=
  u.member_status == MemberStatus.active

/-- `User.is_locked` property: locked iff `locked_until` is set and the
current time is strictly before it. -/
def User.is_locked (u : User) (now : Nat) : Bool :=
  match u.locked_until with
  | none => false
  | some t => decide (now < t)

/-- `User.reset_failed_attempts`: zero the counter and clear the lock. -/
def User.reset_failed_attempts (u : User) : User :=
  { u with failed_login_attempts := 0, locked_until := none }

/-- `User.increment_failed_attempts`: add one failure; if the new count has
reached 5, (re)arm the lock for 15 minutes from now. -/
def User.increment_failed_attempts (u : User) (now : Nat) : User :=
  let u1 := { u with failed_login_attempts := u.failed_login_attempts + 1 }
  if u1.failed_login_attempts ≥ 5 then
    { u1 with locked_until := some (now + 15 * 60) }
  else
    u1

/-- The database session restricted to the users table. -/
abbrev Db := List User

/-- `db.query(User).filter(User.email == email).first()`. -/
def findByEmail (db : Db) (email : String) : Option User :=
  db.find? (fun u => u.email == email)

/-- `db.commit()` after mutating one loaded row: the row with the same
primary key is replaced by the mutated object. -/
def persist (db : Db) (u : User) : Db :=
  db.map (fun v => if v.member_id == u.member_id then u else v)

/-- The internal failure taxonomy of `authenticate_user`.  In the Python
code all three surface uniformly as `None` (anti-enumeration); the
constructor records which check returned. -/
inductive AuthFailure
  | invalidCredentials
  | accountLocked
  | inactiveAccount
deriving DecidableEq

/-- `authenticate_user` from app/utils/auth.py.  `verify_password` is the
external bcrypt verifier.  Returns the outcome together with the database
state after any `db.commit()`. -/
def authenticate_user (verify_password : String → String → Bool)
    (db : Db) (email password : String) (now : Nat) :
    Except AuthFailure User × Db :=
  match findByEmail db email with
  | none => (Except.error AuthFailure.invalidCredentials, db)
  | some user =>
    if user.is_locked now then
      (Except.error AuthFailure.accountLocked, db)
    else if !user.is_active then
      (Except.error AuthFailure.inactiveAccount, db)
    else if !verify_password password user.password_hash then
      let u := user.increment_failed_attempts now
      (Except.error AuthFailure.invalidCredentials, persist db u)
    else
      let u := user.reset_failed_attempts
      (Except.ok u, persist db u)

/-- `get_user_roles` from app/api/dependencies.py: role expansion with
single-level Admin inheritance.  `set(AdminRole)` is `Finset.univ` over the
closed enum. -/
def get_user_roles (u : User) : Finset AdminRole :=
  match u.admin_roles with
  | none => ∅
  | some r => if r = AdminRole.admin then Finset.univ else {r}

/-- Python `str.replace` restricted to the call site in `require_roles`
with a one-character pattern: underscore becomes space. -/
def pyReplaceUnderscoreBySpace (s : String) : String :=
  s.map (fun c => if c = '_' then ' ' else c)

/-- Python `str.title` on a character list: each cased character is
uppercased when the previous character was not cased, lowercased
otherwise. -/
def pyTitleAux : Bool → List Char → List Char
  | _, [] => []
  | prevCased, c :: cs =>
    let cased := c.isAlpha
    let c1 := if cased then (if prevCased then c.toLower else c.toUpper) else c
    c1 :: pyTitleAux cased cs

/-- Python `str.title`. -/
def pyTitle (s : String) : String :=
  ⟨pyTitleAux false s.data⟩

/-- The underscore-to-space replacement followed by `title()` applied to
`role.value`, as used to compose the denial message in `require_roles`. -/
def AdminRole.displayName (r : AdminRole) : String :=
  pyTitle (pyReplaceUnderscoreBySpace r.value)

/-- The role check constructed by `require_roles(*required_roles)` in
app/api/dependencies.py, applied to an already-resolved current user.
`required` is the positional tuple of roles; denial carries the HTTP 403
detail string built by the code. -/
def require_roles (required : List AdminRole) (current_user : User) :
    Except String User :=
  if required.isEmpty then
    Except.ok current_user
  else
    let user_roles := get_user_roles current_user
    if user_roles ∩ required.toFinset = ∅ then
      match required with
      | [r] =>
        Except.error
          ("Access denied. This endpoint requires " ++ r.displayName ++ " role.")
      | _ =>
        Except.error
          ("Access denied. This endpoint requires one of the following roles: "
            ++ String.intercalate ", " (required.map AdminRole.displayName) ++ ".")
    else
      Except.ok current_user

/-- The security-relevant application settings (app/core/settings.py):
`secret_key` comes from the environment, `algorithm` defaults to HS256 and
`access_token_expire_minutes` defaults to 30. -/
structure Settings where
  secret_key : String
  algorithm : String
  access_token_expire_minutes : Nat
deriving DecidableEq

/-- The JWT claims the code reads or writes: `sub`, `user_id`, `exp` and
the refresh discriminator `type`. -/
structure TokenPayload where
  sub : Option String
  user_id : Option String
  exp : Option Nat
  type : Option String
deriving DecidableEq

/-- A JWT on the wire: either a well-formed token produced by
`jwt.encode` (payload plus the key and algorithm it was signed with), or a
structurally malformed string that `jwt.decode` rejects. -/
inductive Token
  | signed (payload : TokenPayload) (key : String) (alg : String)
  | malformed (raw : String)
deriving DecidableEq

/-- `jwt.encode(payload, key, algorithm)`. -/
def jwt_encode (payload : TokenPayload) (key alg : String) : Token :=
  Token.signed payload key alg

/-- True iff the `exp` claim, when present, has not passed: python-jose
raises `ExpiredSignatureError` exactly when `exp < now`. -/
def TokenPayload.notExpired (p : TokenPayload) (now : Nat) : Bool :=
  match p.exp with
  | none => true
  | some e => decide (now ≤ e)

/-- `jwt.decode(token, key, algorithms)` as observed through the
`try/except JWTError` wrapper: the payload when the signature key matches,
the algorithm is accepted and the token is not expired; `none` on any
structural, signature or expiry failure. -/
def jwt_decode (t : Token) (key : String) (algs : List String) (now : Nat) :
    Option TokenPayload :=
  match t with
  | Token.malformed _ => none
  | Token.signed p k a =>
    if k == key && algs.contains a && p.notExpired now then some p else none

/-- `create_access_token` from app/utils/auth.py: copy the claims, embed
an expiry `expires_delta` (default `access_token_expire_minutes` minutes)
from now, and sign.  No type discriminator is added. -/
def create_access_token (s : Settings) (data : TokenPayload) (now : Nat)
    (expires_delta : Option Nat) : Token :=
  let expire :=
    match expires_delta with
    | some d => now + d
    | none => now + s.access_token_expire_minutes * 60
  jwt_encode { data with exp := some expire } s.secret_key s.algorithm

/-- `create_refresh_token` from app/utils/auth.py: 7-day expiry plus the
explicit refresh discriminator. -/
def create_refresh_token (s : Settings) (data : TokenPayload) (now : Nat) :
    Token :=
  jwt_encode
    { data with
      exp := some (now + 7 * 24 * 60 * 60),
      type := some "refresh" }
    s.secret_key s.algorithm

/-- `verify_token` from app/utils/auth.py: decode against the configured
secret and algorithm, returning the payload or `none` (never raising). -/
def verify_token (s : Settings) (t : Token) (now : Nat) : Option TokenPayload :=
  jwt_decode t s.secret_key [s.algorithm] now

/-- `get_user_from_token` from app/utils/auth.py: verify, read `sub`
(`None` fails; no token-type check happens here), then look the user up by
email. -/
def get_user_from_token (s : Settings) (db : Db) (t : Token) (now : Nat) :
    Option User :=
  match verify_token s t now with
  | none => none
  | some payload =>
    match payload.sub with
    | none => none
    | some email => findByEmail db email

/-- The failure modes of `get_current_user` (app/api/dependencies.py):
a generic 401 for missing/invalid credentials and a distinct 401 for an
inactive user.  No token-type failure exists in this dependency. -/
inductive CurrentUserError
  | couldNotValidateCredentials
  | inactiveUser
deriving DecidableEq

/-- `get_current_user` from app/api/dependencies.py: resolve the bearer
token to a user, then require the user to be active. -/
def get_current_user (s : Settings) (db : Db) (credentials : Option Token)
    (now : Nat) : Except CurrentUserError User :=
  match credentials with
  | none => Except.error CurrentUserError.couldNotValidateCredentials
  | some t =>
    match get_user_from_token s db t now with
    | none => Except.error CurrentUserError.couldNotValidateCredentials
    | some u =>
      if !u.is_active then Except.error CurrentUserError.inactiveUser
      else Except.ok u

/-- The failure modes of the `/auth/refresh` endpoint
(app/api/v1/auth.py), one per `HTTPException` site. -/
inductive RefreshError
  | invalidRefreshToken
  | invalidTokenType
  | invalidTokenPayload
  | userNotFoundOrInactive
deriving DecidableEq

/-- The `Token` response schema (app/schemas/auth.py): access and refresh
tokens plus bearer type and expiry seconds. -/
structure TokenPair where
  access_token : Token
  refresh_token : Token
  token_type : String
  expires_in : Nat
deriving DecidableEq

/-- The `/auth/refresh` endpoint (app/api/v1/auth.py `refresh_token`):
verify the presented token, require the `type=refresh` discriminator,
require a non-empty `sub`, require the subject to exist and be active,
then issue a fresh access/refresh pair for the same subject.  The account
lockout state is never consulted. -/
def refresh_endpoint (s : Settings) (db : Db) (refresh_tok : Token)
    (now : Nat) : Except RefreshError TokenPair :=
  match verify_token s refresh_tok now with
  | none => Except.error RefreshError.invalidRefreshToken
  | some payload =>
    if payload.type ≠ some "refresh" then
      Except.error RefreshError.invalidTokenType
    else
      match payload.sub with
      | none => Except.error RefreshError.invalidTokenPayload
      | some email =>
        if email = "" then Except.error RefreshError.invalidTokenPayload
        else
          match findByEmail db email with
          | none => Except.error RefreshError.userNotFoundOrInactive
          | some user =>
            if !user.is_active then
              Except.error RefreshError.userNotFoundOrInactive
            else
              let new_data : TokenPayload :=
                { sub := some user.email, user_id := some (toString user.member_id),
                  exp := none, type := none }
              Except.ok
                { access_token := create_access_token s new_data now none,
                  refresh_token := create_refresh_token s new_data now,
                  token_type := "bearer",
                  expires_in := s.access_token_expire_minutes * 60 }

/-- ASCII range of the regex class for uppercase letters in
`validate_password_strength`. -/
def isUpperAZ (c : Char) : Bool :=
  decide ('A' ≤ c) && decide (c ≤ 'Z')

/-- ASCII range of the regex class for lowercase letters. -/
def isLowerAZ (c : Char) : Bool :=
  decide ('a' ≤ c) && decide (c ≤ 'z')

/-- The code-point ranges of the Unicode decimal digits (category Nd,
Unicode 14.0 as shipped with CPython 3.11): on str patterns the regex
digit class matches exactly these code points, not just ASCII 0-9. -/
def ndRanges : List (Nat × Nat) :=
  [(0x30, 0x39), (0x660, 0x669), (0x6f0, 0x6f9), (0x7c0, 0x7c9),
   (0x966, 0x96f), (0x9e6, 0x9ef), (0xa66, 0xa6f), (0xae6, 0xaef),
   (0xb66, 0xb6f), (0xbe6, 0xbef), (0xc66, 0xc6f), (0xce6, 0xcef),
   (0xd66, 0xd6f), (0xde6, 0xdef), (0xe50, 0xe59), (0xed0, 0xed9),
   (0xf20, 0xf29), (0x1040, 0x1049), (0x1090, 0x1099), (0x17e0, 0x17e9),
   (0x1810, 0x1819), (0x1946, 0x194f), (0x19d0, 0x19d9), (0x1a80, 0x1a89),
   (0x1a90, 0x1a99), (0x1b50, 0x1b59), (0x1bb0, 0x1bb9), (0x1c40, 0x1c49),
   (0x1c50, 0x1c59), (0xa620, 0xa629), (0xa8d0, 0xa8d9), (0xa900, 0xa909),
   (0xa9d0, 0xa9d9), (0xa9f0, 0xa9f9), (0xaa50, 0xaa59), (0xabf0, 0xabf9),
   (0xff10, 0xff19), (0x104a0, 0x104a9), (0x10d30, 0x10d39),
   (0x11066, 0x1106f), (0x110f0, 0x110f9), (0x11136, 0x1113f),
   (0x111d0, 0x111d9), (0x112f0, 0x112f9), (0x11450, 0x11459),
   (0x114d0, 0x114d9), (0x11650, 0x11659), (0x116c0, 0x116c9),
   (0x11730, 0x11739), (0x118e0, 0x118e9), (0x11950, 0x11959),
   (0x11c50, 0x11c59), (0x11d50, 0x11d59), (0x11da0, 0x11da9),
   (0x16a60, 0x16a69), (0x16ac0, 0x16ac9), (0x16b50, 0x16b59),
   (0x1d7ce, 0x1d7ff), (0x1e140, 0x1e149), (0x1e2f0, 0x1e2f9),
   (0x1e950, 0x1e959), (0x1fbf0, 0x1fbf9)]

/-- The regex digit class on a str pattern: any Unicode decimal digit. -/
def isUnicodeDigit (c : Char) : Bool :=
  ndRanges.any (fun r => r.1 ≤ c.toNat && c.toNat ≤ r.2)

/-- The fixed special-character set of the password policy. -/
def specialChars : List Char :=
  "!@#$%^&*(),.?\":\x7b\x7d|<>".data

/-- Membership in the special-character set. -/
def isSpecialChar (c : Char) : Bool :=
  specialChars.contains c

/-- The `validate_password_strength` validator of `PasswordChangeRequest`
(app/schemas/auth.py): each rule is checked in order and the first unmet
rule is reported. -/
def validate_password_strength (v : String) : Except String String :=
  if v.length < 8 then
    Except.error "Password must be at least 8 characters long"
  else if 100 < v.length then
    Except.error "Password must not exceed 100 characters"
  else if !v.data.any isUpperAZ then
    Except.error "Password must contain at least one uppercase letter"
  else if !v.data.any isLowerAZ then
    Except.error "Password must contain at least one lowercase letter"
  else if !v.data.any isUnicodeDigit then
    Except.error "Password must contain at least one digit"
  else if !v.data.any isSpecialChar then
    Except.error
      "Password must contain at least one special character (!@#$%^&*(),.?\":\x7b\x7d|<>)"
  else
    Except.ok v

/-- The `passwords_match` validator of `PasswordChangeRequest`: the
confirmation must equal the (already validated) new password. -/
def passwords_match (new_password confirm_password : String) :
    Except String String :=
  if confirm_password ≠ new_password then Except.error "Passwords do not match"
  else Except.ok confirm_password

/-- Validation of a `PasswordChangeRequest` body: the strength validator
runs on `new_password`, then the match validator compares
`confirm_password` against it; the first failure is reported. -/
def validatePasswordChange (new_password confirm_password : String) :
    Except String Unit :=
  match validate_password_strength new_password with
  | Except.error e => Except.error e
  | Except.ok _ =>
    match passwords_match new_password confirm_password with
    | Except.error e => Except.error e
    | Except.ok _ => Except.ok ()

/-- A concrete active user for instantiating the theorems. -/
def user0 : User :=
  { member_id := 1, email := "alice@example.com", password_hash := "pw-hash",
    member_status := MemberStatus.active, admin_roles := none,
    failed_login_attempts := 0, locked_until := none, other_fields := ["Alice"] }

/-- `user0` after five consecutive failed attempts, the fifth at time 0:
five failures counted and the lock armed until second 900. -/
def lockedUser : User :=
  { user0 with failed_login_attempts := 5, locked_until := some 900 }

/-- A concrete stand-in for the external bcrypt verifier: the hash of a
password is the password followed by a fixed suffix. -/
def pwEq : String → String → Bool :=
  fun p h => (p ++ "-hash") == h

/-- Concrete settings: environment secret, default HS256 and default
30-minute access-token lifetime. -/
def settings0 : Settings :=
  { secret_key := "supersecret", algorithm := "HS256",
    access_token_expire_minutes := 30 }

/-- Concrete login claims for `user0`. -/
def payload0 : TokenPayload :=
  { sub := some "alice@example.com", user_id := some "1",
    exp := none, type := none }

/-- A concrete refresh token for `user0`, issued at time 0. -/
def refreshTok0 : Token :=
  create_refresh_token settings0 payload0 0

/-- C3: `increment_failed_attempts` increments the counter by exactly one;
whenever the resulting count is at least 5 it sets `locked_until` to now
plus 15 minutes — re-arming the lock on every such failure with a full
fresh window, regardless of any previous `locked_until` value and without
requiring a fresh run of 5 failures — and below the threshold it leaves
`locked_until` untouched. -/
theorem increment_failed_attempts_spec (u : User) (now : Nat) :
    (u.increment_failed_attempts now).failed_login_attempts
        = u.failed_login_attempts + 1 ∧
    (5 ≤ u.failed_login_attempts + 1 →
      (u.increment_failed_attempts now).locked_until = some (now + 15 * 60)) ∧
    (u.failed_login_attempts + 1 < 5 →
      (u.increment_failed_attempts now).locked_until = u.locked_until) := by
  unfold User.increment_failed_attempts
  refine ⟨?_, fun h => ?_, fun h => ?_⟩
  · dsimp only
    split <;> rfl
  · dsimp only
    rw [if_pos h]
  · dsimp only
    rw [if_neg (by omega)]

/-- Witness for C3: a user with 4 prior failures, failing again at time
100, ends locked until second 1000 — and in particular a single failure
after a lock expired (counter already at the threshold) re-arms a full
window. -/
theorem increment_failed_attempts_spec_witness :
    ({ user0 with failed_login_attempts := 4 }.increment_failed_attempts
        100).locked_until = some (100 + 15 * 60) ∧
    (lockedUser.increment_failed_attempts 2000).locked_until
        = some (2000 + 15 * 60) :=
  ⟨(increment_failed_attempts_spec
      { user0 with failed_login_attempts := 4 } 100).2.1 (by decide),
   (increment_failed_attempts_spec lockedUser 2000).2.1 (by decide)⟩

/-- C1: `authenticate_user` checks in short-circuit order — identity
lookup (not found fails as invalid credentials), then the lockout check,
then the active-status check, then password verification (a mismatch
records a failure and persists it, failing as invalid credentials) — and
on a match it resets `failed_login_attempts` to 0, clears `locked_until`,
persists, and returns the identity. -/
theorem authenticate_user_spec (vp : String → String → Bool) (db : Db)
    (email password : String) (now : Nat) :
    (findByEmail db email = none →
      authenticate_user vp db email password now =
        (Except.error AuthFailure.invalidCredentials, db)) ∧
    (∀ u, findByEmail db email = some u →
      (u.is_locked now = true →
        authenticate_user vp db email password now =
          (Except.error AuthFailure.accountLocked, db)) ∧
      (u.is_locked now = false → u.is_active = false →
        authenticate_user vp db email password now =
          (Except.error AuthFailure.inactiveAccount, db)) ∧
      (u.is_locked now = false → u.is_active = true →
        vp password u.password_hash = false →
        authenticate_user vp db email password now =
          (Except.error AuthFailure.invalidCredentials,
            persist db (u.increment_failed_attempts now))) ∧
      (u.is_locked now = false → u.is_active = true →
        vp password u.password_hash = true →
        authenticate_user vp db email password now =
          (Except.ok u.reset_failed_attempts,
            persist db u.reset_failed_attempts) ∧
        u.reset_failed_attempts.failed_login_attempts = 0 ∧
        u.reset_failed_attempts.locked_until = none)) := by
  refine ⟨fun h => ?_,
    fun u hu => ⟨fun h1 => ?_, fun h1 h2 => ?_,
      fun h1 h2 h3 => ?_, fun h1 h2 h3 => ?_⟩⟩ <;>
    simp [authenticate_user, User.reset_failed_attempts, *]

/-- Witness for C1: the concrete user with the matching password
authenticates, resetting the counters and persisting. -/
theorem authenticate_user_spec_witness :
    authenticate_user pwEq [user0] "alice@example.com" "pw" 0 =
      (Except.ok user0.reset_failed_attempts,
        persist [user0] user0.reset_failed_attempts) :=
  ((((authenticate_user_spec pwEq [user0] "alice@example.com" "pw" 0).2
      user0 (by decide)).2.2.2) (by decide) (by decide) (by decide)).1

/-- C4: for an account locked after five consecutive failures, a sixth
attempt with the correct password still fails as locked, and the database
— hence `failed_login_attempts` and every other stored field of the
identity — is unchanged by that attempt. -/
theorem sixth_attempt_still_locked (vp : String → String → Bool) (db : Db)
    (email password : String) (now L : Nat) (u : User)
    (hfind : findByEmail db email = some u)
    (hcount : u.failed_login_attempts = 5)
    (hlock : u.locked_until = some L)
    (hnow : now < L)
    (hpw : vp password u.password_hash = true) :
    authenticate_user vp db email password now =
      (Except.error AuthFailure.accountLocked, db) := by
  have hl : u.is_locked now = true := by
    simp [User.is_locked, hlock, hnow]
  simp [authenticate_user, hfind, hl]

/-- Witness for C4: `lockedUser` carries five failures and a lock until
second 900; at time 100 the correct password still yields the locked
failure and the stored row is untouched. -/
theorem sixth_attempt_still_locked_witness :
    authenticate_user pwEq [lockedUser] "alice@example.com" "pw" 100 =
      (Except.error AuthFailure.accountLocked, [lockedUser]) :=
  sixth_attempt_still_locked pwEq [lockedUser] "alice@example.com" "pw" 100 900
    lockedUser (by decide) (by decide) (by decide) (by decide) (by decide)

/-- C6: role expansion maps Admin to the full closed 4-tag set, any other
specific tag to the singleton containing exactly that tag, and an absent
role to the empty set; no tag other than Admin expands beyond itself. -/
theorem get_user_roles_spec (u : User) :
    (u.admin_roles = some AdminRole.admin →
      get_user_roles u =
        {AdminRole.admin, AdminRole.treasurer, AdminRole.course_coordinator,
          AdminRole.tournament_coordinator}) ∧
    (∀ r, u.admin_roles = some r → r ≠ AdminRole.admin →
      get_user_roles u = {r}) ∧
    (u.admin_roles = none → get_user_roles u = ∅) := by
  refine ⟨fun h => ?_, fun r hr hne => ?_, fun h => ?_⟩
  · simp only [get_user_roles, h]
    decide
  · simp [get_user_roles, hr, hne]
  · simp [get_user_roles, h]

/-- Witness for C6: an Admin expands to all four tags, a Treasurer only to
itself, and `user0` (no role) to the empty set. -/
theorem get_user_roles_spec_witness :
    get_user_roles { user0 with admin_roles := some AdminRole.admin } =
      {AdminRole.admin, AdminRole.treasurer, AdminRole.course_coordinator,
        AdminRole.tournament_coordinator} ∧
    get_user_roles { user0 with admin_roles := some AdminRole.treasurer } =
      {AdminRole.treasurer} ∧
    get_user_roles user0 = ∅ :=
  ⟨(get_user_roles_spec
      { user0 with admin_roles := some AdminRole.admin }).1 rfl,
   (get_user_roles_spec
      { user0 with admin_roles := some AdminRole.treasurer }).2.1
      AdminRole.treasurer rfl (by decide),
   (get_user_roles_spec user0).2.2 rfl⟩

/-- C7: the check built by `require_roles` allows exactly when no role is
required or the caller holds one of the required roles; a denial names the
required role in singular phrasing for one role and as a
one-of-the-following list for several. -/
theorem require_roles_spec (required : List AdminRole) (u : User) :
    (require_roles required u = Except.ok u ↔
      required = [] ∨ (get_user_roles u ∩ required.toFinset).Nonempty) ∧
    (∀ r, required = [r] → get_user_roles u ∩ required.toFinset = ∅ →
      require_roles required u =
        Except.error
          ("Access denied. This endpoint requires "
            ++ r.displayName ++ " role.")) ∧
    (2 ≤ required.length → get_user_roles u ∩ required.toFinset = ∅ →
      require_roles required u =
        Except.error
          ("Access denied. This endpoint requires one of the following roles: "
            ++ String.intercalate ", " (required.map AdminRole.displayName)
            ++ ".")) := by
  refine ⟨?_, fun r hr h => ?_, fun hlen h => ?_⟩
  · cases required with
    | nil => simp [require_roles]
    | cons a t =>
      unfold require_roles
      rw [if_neg (by simp)]
      by_cases h : get_user_roles u ∩ (a :: t).toFinset = ∅
      · rw [if_pos h, h]
        cases t <;> simp
      · rw [if_neg h]
        exact iff_of_true rfl (Or.inr (Finset.nonempty_iff_ne_empty.mpr h))
  · subst hr
    unfold require_roles
    rw [if_neg (by simp), if_pos h]
  · cases required with
    | nil => exact absurd hlen (by decide)
    | cons a t =>
      cases t with
      | nil =>
        simp only [List.length_cons, List.length_nil] at hlen
        omega
      | cons b t2 =>
        unfold require_roles
        rw [if_neg (by simp), if_pos h]

/-- Witness for C7: the roleless `user0` is denied a Treasurer-only check
with the singular message, denied a two-role check with the list message,
and allowed through an empty requirement. -/
theorem require_roles_spec_witness :
    require_roles [AdminRole.treasurer] user0 =
      Except.error
        ("Access denied. This endpoint requires "
          ++ AdminRole.displayName AdminRole.treasurer ++ " role.") ∧
    require_roles [AdminRole.treasurer, AdminRole.admin] user0 =
      Except.error
        ("Access denied. This endpoint requires one of the following roles: "
          ++ String.intercalate ", "
              ([AdminRole.treasurer, AdminRole.admin].map AdminRole.displayName)
          ++ ".") ∧
    require_roles [] user0 = Except.ok user0 :=
  ⟨(require_roles_spec [AdminRole.treasurer] user0).2.1
      AdminRole.treasurer rfl (by decide),
   (require_roles_spec [AdminRole.treasurer, AdminRole.admin] user0).2.2
      (by decide) (by decide),
   ((require_roles_spec [] user0).1).mpr (Or.inl rfl)⟩

/-- C5: verifying a token issued by `create_access_token` (default
lifetime) returns claims whose sub and user_id match the input when
verification happens before the embedded expiry, and returns none when
verification happens after the expiry. -/
theorem verify_create_access_token_spec (s : Settings) (data : TokenPayload)
    (issued now : Nat) :
    (now ≤ issued + s.access_token_expire_minutes * 60 →
      ∃ p, verify_token s (create_access_token s data issued none) now = some p ∧
        p.sub = data.sub ∧ p.user_id = data.user_id) ∧
    (issued + s.access_token_expire_minutes * 60 < now →
      verify_token s (create_access_token s data issued none) now = none) := by
  constructor
  · intro h
    refine ⟨{ data with
      exp := some (issued + s.access_token_expire_minutes * 60) }, ?_, rfl, rfl⟩
    simp [verify_token, create_access_token, jwt_encode, jwt_decode,
      TokenPayload.notExpired, h]
  · intro h
    simp [verify_token, create_access_token, jwt_encode, jwt_decode,
      TokenPayload.notExpired]
    omega

/-- Witness for C5: a token issued at time 0 under `settings0` verifies at
time 100 with the original subject and user id, and fails to verify at
time 1801 (one second past the 30-minute expiry). -/
theorem verify_create_access_token_spec_witness :
    (∃ p, verify_token settings0 (create_access_token settings0 payload0 0 none)
        100 = some p ∧ p.sub = payload0.sub ∧ p.user_id = payload0.user_id) ∧
    verify_token settings0 (create_access_token settings0 payload0 0 none)
        1801 = none :=
  ⟨(verify_create_access_token_spec settings0 payload0 0 100).1 (by decide),
   (verify_create_access_token_spec settings0 payload0 0 1801).2 (by decide)⟩

/-- C8: `verify_token` is a total function into an option: for a
well-formed signed token it returns the decoded payload exactly when the
signing key matches the configured secret, the algorithm is the configured
one and the embedded expiry has not passed, and the sentinel none on any
signature, algorithm or expiry failure; for a structurally malformed token
it returns none.  Failure is only ever the sentinel — no exception reaches
the caller. -/
theorem verify_token_total_spec (s : Settings) (t : Token) (now : Nat) :
    (∀ p k a, t = Token.signed p k a →
      ((k = s.secret_key ∧ a = s.algorithm ∧ p.notExpired now = true) →
        verify_token s t now = some p) ∧
      (¬ (k = s.secret_key ∧ a = s.algorithm ∧ p.notExpired now = true) →
        verify_token s t now = none)) ∧
    (∀ raw, t = Token.malformed raw → verify_token s t now = none) := by
  constructor
  · intro p k a ht
    subst ht
    constructor
    · rintro ⟨h1, h2, h3⟩
      simp [verify_token, jwt_decode, h1, h2, h3]
    · intro h
      have hcond :
          ¬ (k == s.secret_key && [s.algorithm].contains a
              && p.notExpired now) = true := by
        simp only [Bool.and_eq_true, beq_iff_eq, List.contains_cons,
          List.contains_nil, Bool.or_false]
        tauto
      simp only [verify_token, jwt_decode, if_neg hcond]
  · intro raw ht
    subst ht
    rfl

/-- Witness for C8: the sample refresh token decodes to its payload while
fresh, a token signed with a different key yields none, and a malformed
string yields none. -/
theorem verify_token_total_spec_witness :
    verify_token settings0 refreshTok0 100 =
      some { payload0 with exp := some 604800, type := some "refresh" } ∧
    verify_token settings0
      (Token.signed payload0 "wrong-key" "HS256") 100 = none ∧
    verify_token settings0 (Token.malformed "not-a-jwt") 100 = none :=
  ⟨((verify_token_total_spec settings0 refreshTok0 100).1
      { payload0 with exp := some 604800, type := some "refresh" }
      "supersecret" "HS256" rfl).1 ⟨rfl, rfl, by decide⟩,
   ((verify_token_total_spec settings0
      (Token.signed payload0 "wrong-key" "HS256") 100).1
      payload0 "wrong-key" "HS256" rfl).2 (by decide),
   (verify_token_total_spec settings0
      (Token.malformed "not-a-jwt") 100).2 "not-a-jwt" rfl⟩

/-- C2 counterexample: `refreshTok0` carries the `type=refresh`
discriminator, yet presenting it as the bearer token for current-user
resolution is accepted — `get_current_user` returns the user, and no
invalid-token-type rejection exists on that path. -/
theorem refresh_token_accepted_as_bearer :
    (∃ p, verify_token settings0 refreshTok0 100 = some p ∧
      p.type = some "refresh") ∧
    get_current_user settings0 [user0] (some refreshTok0) 100 =
      Except.ok user0 :=
  ⟨⟨{ payload0 with exp := some 604800, type := some "refresh" }, rfl, rfl⟩,
   rfl⟩

/-- C2 amended: current-user resolution performs no token-type check, so
a refresh token presented where an access token is expected is not
rejected — any validly signed, unexpired token whose subject names an
existing active user resolves to that user. -/
theorem refresh_token_as_bearer_accepted (s : Settings) (db : Db)
    (data : TokenPayload) (email : String) (u : User) (issued now : Nat)
    (hsub : data.sub = some email)
    (hfind : findByEmail db email = some u)
    (hactive : u.is_active = true)
    (hfresh : now ≤ issued + 7 * 24 * 60 * 60) :
    get_current_user s db (some (create_refresh_token s data issued)) now =
      Except.ok u := by
  have hv : verify_token s (create_refresh_token s data issued) now =
      some { data with
        exp := some (issued + 7 * 24 * 60 * 60), type := some "refresh" } := by
    simp [verify_token, create_refresh_token, jwt_encode, jwt_decode,
      TokenPayload.notExpired, hfresh]
  simp [get_current_user, get_user_from_token, hv, hsub, hfind, hactive]

/-- Witness for the amended C2: the concrete refresh token for `user0`
resolves to `user0` at time 200. -/
theorem refresh_token_as_bearer_accepted_witness :
    get_current_user settings0 [user0] (some refreshTok0) 200 =
      Except.ok user0 :=
  refresh_token_as_bearer_accepted settings0 [user0] payload0
    "alice@example.com" user0 0 200 rfl (by decide) (by decide) (by decide)

/-- C10: the lockout state gates only password authentication.  For a
locked but existing, active identity, a previously issued valid access
token still resolves to the identity, and the refresh operation still
issues a fresh access/refresh pair. -/
theorem lockout_does_not_gate_tokens (s : Settings) (db : Db) (u : User)
    (email : String) (data : TokenPayload) (issued now L : Nat)
    (hfind : findByEmail db email = some u)
    (hactive : u.is_active = true)
    (hlock : u.locked_until = some L)
    (hnow : now < L)
    (hsub : data.sub = some email)
    (hne : email ≠ "")
    (hfreshA : now ≤ issued + s.access_token_expire_minutes * 60)
    (hfreshR : now ≤ issued + 7 * 24 * 60 * 60) :
    u.is_locked now = true ∧
    get_current_user s db (some (create_access_token s data issued none)) now =
      Except.ok u ∧
    ∃ pair, refresh_endpoint s db (create_refresh_token s data issued) now =
      Except.ok pair := by
  refine ⟨by simp [User.is_locked, hlock, hnow], ?_, ?_⟩
  · have hv : verify_token s (create_access_token s data issued none) now =
        some { data with
          exp := some (issued + s.access_token_expire_minutes * 60) } := by
      simp [verify_token, create_access_token, jwt_encode, jwt_decode,
        TokenPayload.notExpired, hfreshA]
    simp [get_current_user, get_user_from_token, hv, hsub, hfind, hactive]
  · have hv : verify_token s (create_refresh_token s data issued) now =
        some { data with
          exp := some (issued + 7 * 24 * 60 * 60), type := some "refresh" } := by
      simp [verify_token, create_refresh_token, jwt_encode, jwt_decode,
        TokenPayload.notExpired, hfreshR]
    exact ⟨_, by simp [refresh_endpoint, hv, hsub, hne, hfind, hactive]; rfl⟩

/-- Witness for C10: `lockedUser` (locked until second 900) at time 100
still resolves from a fresh access token and still refreshes. -/
theorem lockout_does_not_gate_tokens_witness :
    lockedUser.is_locked 100 = true ∧
    get_current_user settings0 [lockedUser]
      (some (create_access_token settings0 payload0 0 none)) 100 =
        Except.ok lockedUser ∧
    ∃ pair, refresh_endpoint settings0 [lockedUser]
      (create_refresh_token settings0 payload0 0) 100 = Except.ok pair :=
  lockout_does_not_gate_tokens settings0 [lockedUser] lockedUser
    "alice@example.com" payload0 0 100 900 (by decide) (by decide) (by decide)
    (by decide) rfl (by decide) (by decide) (by decide)

/-- The strength validator succeeds exactly on its input when every policy
rule holds: length within [8,100] and at least one character from each
required class. -/
theorem validate_password_strength_ok (v w : String) :
    validate_password_strength v = Except.ok w ↔
      (w = v ∧ 8 ≤ v.length ∧ v.length ≤ 100 ∧
       v.data.any isUpperAZ = true ∧ v.data.any isLowerAZ = true ∧
       v.data.any isUnicodeDigit = true ∧ v.data.any isSpecialChar = true) := by
  unfold validate_password_strength
  constructor
  · intro h
    split_ifs at h with h1 h2 h3 h4 h5 h6 <;> simp at h
    refine ⟨h.symm, by omega, by omega, ?_, ?_, ?_, ?_⟩ <;> simp_all
  · rintro ⟨hw, ha, hb, h3, h4, h5, h6⟩
    subst hw
    rw [if_neg (by omega), if_neg (by omega), if_neg (by simp [h3]),
      if_neg (by simp [h4]), if_neg (by simp [h5]), if_neg (by simp [h6])]

/-- The strength validator reports the first unmet rule, in source
order. -/
theorem validate_password_strength_messages (v : String) :
    (v.length < 8 →
      validate_password_strength v =
        Except.error "Password must be at least 8 characters long") ∧
    (100 < v.length →
      validate_password_strength v =
        Except.error "Password must not exceed 100 characters") ∧
    (8 ≤ v.length → v.length ≤ 100 → v.data.any isUpperAZ = false →
      validate_password_strength v =
        Except.error "Password must contain at least one uppercase letter") ∧
    (8 ≤ v.length → v.length ≤ 100 → v.data.any isUpperAZ = true →
      v.data.any isLowerAZ = false →
      validate_password_strength v =
        Except.error "Password must contain at least one lowercase letter") ∧
    (8 ≤ v.length → v.length ≤ 100 → v.data.any isUpperAZ = true →
      v.data.any isLowerAZ = true → v.data.any isUnicodeDigit = false →
      validate_password_strength v =
        Except.error "Password must contain at least one digit") ∧
    (8 ≤ v.length → v.length ≤ 100 → v.data.any isUpperAZ = true →
      v.data.any isLowerAZ = true → v.data.any isUnicodeDigit = true →
      v.data.any isSpecialChar = false →
      validate_password_strength v =
        Except.error
          "Password must contain at least one special character (!@#$%^&*(),.?\":\x7b\x7d|<>)") := by
  unfold validate_password_strength
  refine ⟨fun h1 => ?_, fun h2 => ?_, fun ha hb h3 => ?_, fun ha hb h3 h4 => ?_,
    fun ha hb h3 h4 h5 => ?_, fun ha hb h3 h4 h5 h6 => ?_⟩
  · rw [if_pos h1]
  · rw [if_neg (by omega), if_pos h2]
  · rw [if_neg (by omega), if_neg (by omega), if_pos (by simp [h3])]
  · rw [if_neg (by omega), if_neg (by omega), if_neg (by simp [h3]),
      if_pos (by simp [h4])]
  · rw [if_neg (by omega), if_neg (by omega), if_neg (by simp [h3]),
      if_neg (by simp [h4]), if_pos (by simp [h5])]
  · rw [if_neg (by omega), if_neg (by omega), if_neg (by simp [h3]),
      if_neg (by simp [h4]), if_neg (by simp [h5]), if_pos (by simp [h6])]

/-- A strength-validation failure propagates unchanged through the request
validation. -/
theorem validatePasswordChange_propagates (newp confirm e : String)
    (h : validate_password_strength newp = Except.error e) :
    validatePasswordChange newp confirm = Except.error e := by
  simp [validatePasswordChange, h]

/-- C9: a password-change input is accepted exactly when the new password
has length in [8,100] and contains at least one uppercase letter, one
lowercase letter, one digit and one character from the fixed special set,
and the confirmation equals the new password; each violation is rejected
with the message naming the specific unmet rule, in source order, with a
mismatched confirmation reported once the strength rules pass. -/
theorem password_change_validation_spec (newp confirm : String) :
    (validatePasswordChange newp confirm = Except.ok () ↔
      (8 ≤ newp.length ∧ newp.length ≤ 100 ∧
       newp.data.any isUpperAZ = true ∧ newp.data.any isLowerAZ = true ∧
       newp.data.any isUnicodeDigit = true ∧ newp.data.any isSpecialChar = true ∧
       confirm = newp)) ∧
    (newp.length < 8 →
      validatePasswordChange newp confirm =
        Except.error "Password must be at least 8 characters long") ∧
    (100 < newp.length →
      validatePasswordChange newp confirm =
        Except.error "Password must not exceed 100 characters") ∧
    (8 ≤ newp.length → newp.length ≤ 100 → newp.data.any isUpperAZ = false →
      validatePasswordChange newp confirm =
        Except.error "Password must contain at least one uppercase letter") ∧
    (8 ≤ newp.length → newp.length ≤ 100 → newp.data.any isUpperAZ = true →
      newp.data.any isLowerAZ = false →
      validatePasswordChange newp confirm =
        Except.error "Password must contain at least one lowercase letter") ∧
    (8 ≤ newp.length → newp.length ≤ 100 → newp.data.any isUpperAZ = true →
      newp.data.any isLowerAZ = true → newp.data.any isUnicodeDigit = false →
      validatePasswordChange newp confirm =
        Except.error "Password must contain at least one digit") ∧
    (8 ≤ newp.length → newp.length ≤ 100 → newp.data.any isUpperAZ = true →
      newp.data.any isLowerAZ = true → newp.data.any isUnicodeDigit = true →
      newp.data.any isSpecialChar = false →
      validatePasswordChange newp confirm =
        Except.error
          "Password must contain at least one special character (!@#$%^&*(),.?\":\x7b\x7d|<>)") ∧
    (validate_password_strength newp = Except.ok newp → confirm ≠ newp →
      validatePasswordChange newp confirm =
        Except.error "Passwords do not match") := by
  have msgs := validate_password_strength_messages newp
  refine ⟨?_,
    fun h => validatePasswordChange_propagates newp confirm _ (msgs.1 h),
    fun h => validatePasswordChange_propagates newp confirm _ (msgs.2.1 h),
    fun ha hb h => validatePasswordChange_propagates newp confirm _
      (msgs.2.2.1 ha hb h),
    fun ha hb h3 h4 => validatePasswordChange_propagates newp confirm _
      (msgs.2.2.2.1 ha hb h3 h4),
    fun ha hb h3 h4 h5 => validatePasswordChange_propagates newp confirm _
      (msgs.2.2.2.2.1 ha hb h3 h4 h5),
    fun ha hb h3 h4 h5 h6 => validatePasswordChange_propagates newp confirm _
      (msgs.2.2.2.2.2 ha hb h3 h4 h5 h6),
    fun hok hne => by simp [validatePasswordChange, passwords_match, hok, hne]⟩
  constructor
  · intro h
    cases hs : validate_password_strength newp with
    | error e =>
      rw [validatePasswordChange_propagates newp confirm e hs] at h
      exact absurd h (by simp)
    | ok w =>
      obtain ⟨hw, hconds⟩ := (validate_password_strength_ok newp w).mp hs
      by_cases hc : confirm = newp
      · exact ⟨hconds.1, hconds.2.1, hconds.2.2.1, hconds.2.2.2.1,
          hconds.2.2.2.2.1, hconds.2.2.2.2.2, hc⟩
      · rw [show validatePasswordChange newp confirm =
            Except.error "Passwords do not match" from by
          simp [validatePasswordChange, passwords_match, hs, hc]] at h
        exact absurd h (by simp)
  · rintro ⟨ha, hb, h3, h4, h5, h6, hc⟩
    have hs : validate_password_strength newp = Except.ok newp :=
      (validate_password_strength_ok newp newp).mpr
        ⟨rfl, ha, hb, h3, h4, h5, h6⟩
    simp [validatePasswordChange, passwords_match, hs, hc]

/-- Witness for C9: the 8-character boundary password with matching
confirmation is accepted; a password whose only digit is the Arabic-Indic
digit U+0661 is also accepted (the regex digit class is Unicode-wide); a
digitless password is rejected with the digit rule; a matching-strength
password with a mismatched confirmation is rejected with the mismatch
message. -/
theorem password_change_validation_spec_witness :
    validatePasswordChange "Valid1!A" "Valid1!A" = Except.ok () ∧
    validatePasswordChange "Aa١bcde!" "Aa١bcde!" = Except.ok () ∧
    validatePasswordChange "NoDigitsHere!" "NoDigitsHere!" =
      Except.error "Password must contain at least one digit" ∧
    validatePasswordChange "Valid1!A" "Other1!A" =
      Except.error "Passwords do not match" :=
  ⟨((password_change_validation_spec "Valid1!A" "Valid1!A").1).mpr
      (by decide),
   ((password_change_validation_spec "Aa١bcde!" "Aa١bcde!").1).mpr
      (by decide),
   (password_change_validation_spec "NoDigitsHere!" "NoDigitsHere!").2.2.2.2.2.1
      (by decide) (by decide) (by decide) (by decide) (by decide),
   (password_change_validation_spec "Valid1!A" "Other1!A").2.2.2.2.2.2.2
      rfl (by decide)⟩

end LeagueLogik
